import Mathlib

/-!
Shallow embedding of the librespot connect play-state engine
(`src/connect/src/state.rs`) and the dealer request decoder
(`src/core/src/dealer/protocol/request.rs`).

Machine integers are modelled as `Nat`/`Int` with explicit range checks where
the Rust code performs fallible conversions.  JSON values are modelled by the
inductive `Json` below (numbers as `Int`; the claims under verification do not
involve fractional numbers).  Wall-clock (`SystemTime`) instants are modelled
as signed milliseconds relative to the Unix epoch, monotonic (`Instant`)
instants as `Nat` milliseconds on the monotonic clock; both are passed to the
operations that read the clocks as explicit parameters.
-/

namespace Librespot

/-- A JSON structural value (`serde_json::Value`). Objects are association
lists, first binding wins on lookup. -/
inductive Json where
  | null
  | bool (b : Bool)
  | num (n : Int)
  | str (s : String)
  | arr (elems : List Json)
  | obj (fields : List (String × Json))

/-- A decode failure, as produced by serde for a missing required field or a
field of the wrong shape. -/
inductive DecodeError where
  | missing (field : String)
  | invalid (field : String)
  deriving DecidableEq, Repr

/-- Look a required field up in a JSON object; a missing field or a non-object
carrier is a decode error. -/
def reqField (j : Json) (k : String) : Except DecodeError Json :=
  match j with
  | .obj fields =>
    match fields.lookup k with
    | some v => .ok v
    | none => .error (.missing k)
  | _ => .error (.invalid k)

/-- Decode a JSON string. -/
def asString (k : String) : Json → Except DecodeError String
  | .str s => .ok s
  | _ => .error (.invalid k)

/-- Decode a JSON boolean. -/
def asBool (k : String) : Json → Except DecodeError Bool
  | .bool b => .ok b
  | _ => .error (.invalid k)

/-- Decode a `u32`: a number in `[0, 2^32)`. -/
def asU32 (k : String) : Json → Except DecodeError Nat
  | .num n => if 0 ≤ n ∧ n < 2 ^ 32 then .ok n.toNat else .error (.invalid k)
  | _ => .error (.invalid k)

/-- Decode an `i64`: a number in `[-2^63, 2^63)`. -/
def asI64 (k : String) : Json → Except DecodeError Int
  | .num n => if -(2 ^ 63) ≤ n ∧ n < 2 ^ 63 then .ok n else .error (.invalid k)
  | _ => .error (.invalid k)

/-- Decode a list of JSON strings. -/
def asStringList (k : String) : Json → Except DecodeError (List String)
  | .arr elems => elems.mapM (asString k)
  | _ => .error (.invalid k)

/-- Decode an `Option<T>` struct field: a missing field or an explicit `null`
is `none`; a present value must decode. -/
def optField (j : Json) (k : String) (f : Json → Except DecodeError α) :
    Except DecodeError (Option α) :=
  match j with
  | .obj fields =>
    match fields.lookup k with
    | none => .ok none
    | some .null => .ok none
    | some v => (f v).map some
  | _ => .error (.invalid k)

/-- `LoggingParams`: opaque diagnostic correlation fields, every field
optional. -/
structure LoggingParams where
  interaction_ids : Option (List String)
  device_identifier : Option String
  command_initiated_time : Option Int
  page_instance_ids : Option (List String)
  command_id : Option String
  deriving DecidableEq, Repr

def decodeLoggingParams (j : Json) : Except DecodeError LoggingParams := do
  let interaction_ids ← optField j "interaction_ids" (asStringList "interaction_ids")
  let device_identifier ← optField j "device_identifier" (asString "device_identifier")
  let command_initiated_time ← optField j "command_initiated_time" (asI64 "command_initiated_time")
  let page_instance_ids ← optField j "page_instance_ids" (asStringList "page_instance_ids")
  let command_id ← optField j "command_id" (asString "command_id")
  return { interaction_ids, device_identifier, command_initiated_time,
           page_instance_ids, command_id }

/-- Modelled from the spec: protobuf `TransferState` (defined in
`librespot_protocol`, not part of the verified sources) is an opaque
structured sub-message carried base64-encoded; we retain the encoded form. -/
structure TransferState where
  base64_data : String
  deriving DecidableEq, Repr

/-- Modelled from the spec: the `base64_proto` adapter from
`crate::deserialize_with` (not part of the verified sources) decodes an
optional base64-encoded binary-embedded sub-message; absence (or `null`)
is valid and decodes to `none`. -/
def base64_proto (k : String) : Json → Except DecodeError (Option TransferState)
  | .null => .ok none
  | .str s => .ok (some { base64_data := s })
  | _ => .error (.invalid k)

/-- Modelled from the spec: protobuf `Context` (playback context) from
`librespot_protocol`; only its URI is retained here. -/
structure Context where
  uri : String
  deriving DecidableEq, Repr

/-- Modelled from the spec: protobuf `PlayOrigin` from `librespot_protocol`. -/
structure PlayOrigin where
  feature_identifier : String
  deriving DecidableEq, Repr

/-- Modelled from the spec: protobuf `ContextPlayerOptionOverrides` from
`librespot_protocol`. -/
structure ContextPlayerOptionOverrides where
  shuffling_context : Option Bool
  repeating_context : Option Bool
  repeating_track : Option Bool
  deriving DecidableEq, Repr

/-- A single queue/history entry (protobuf `ProvidedTrack`); the fields the
verified code reads or writes: URI, instance uid, provider tag.  The remaining
protobuf fields (metadata map, restrictions, album/artist URIs) are never
touched by the verified operations and are omitted. -/
structure ProvidedTrack where
  uri : String
  uid : String
  provider : String
  deriving DecidableEq, Repr

/-- Modelled from the spec: the `json_proto` adapter (structurally-mapped
decoding) for `Context`; optional/absent fields must not fail the decode,
absent proto3 string fields default to the empty string. -/
def json_proto_context (j : Json) : Except DecodeError Context := do
  match j with
  | .obj _ =>
    let uri ← optField j "uri" (asString "uri")
    return { uri := uri.getD "" }
  | _ => .error (.invalid "context")

/-- Modelled from the spec: `json_proto` for `PlayOrigin`. -/
def json_proto_play_origin (j : Json) : Except DecodeError PlayOrigin := do
  match j with
  | .obj _ =>
    let fid ← optField j "feature_identifier" (asString "feature_identifier")
    return { feature_identifier := fid.getD "" }
  | _ => .error (.invalid "play_origin")

/-- Modelled from the spec: `json_proto` for `ContextPlayerOptionOverrides`. -/
def json_proto_option_overrides (j : Json) :
    Except DecodeError ContextPlayerOptionOverrides := do
  match j with
  | .obj _ =>
    let sc ← optField j "shuffling_context" (asBool "shuffling_context")
    let rc ← optField j "repeating_context" (asBool "repeating_context")
    let rt ← optField j "repeating_track" (asBool "repeating_track")
    return { shuffling_context := sc, repeating_context := rc, repeating_track := rt }
  | _ => .error (.invalid "player_option_overrides")

/-- Modelled from the spec: `json_proto` for `ProvidedTrack`. -/
def json_proto_provided_track (j : Json) : Except DecodeError ProvidedTrack := do
  match j with
  | .obj _ =>
    let uri ← optField j "uri" (asString "uri")
    let uid ← optField j "uid" (asString "uid")
    let pr ← optField j "provider" (asString "provider")
    return { uri := uri.getD "", uid := uid.getD "", provider := pr.getD "" }
  | _ => .error (.invalid "track")

/-- Modelled from the spec: the `option_json_proto` adapter; `null` decodes to
`none`, any other value is structurally mapped. -/
def option_json_proto_provided_track (j : Json) :
    Except DecodeError (Option ProvidedTrack) :=
  match j with
  | .null => .ok none
  | v => (json_proto_provided_track v).map some

/-- Modelled from the spec: the `vec_json_proto` adapter; a JSON array each of
whose elements is structurally mapped. -/
def vec_json_proto_provided_track (k : String) (j : Json) :
    Except DecodeError (List ProvidedTrack) :=
  match j with
  | .arr elems => elems.mapM json_proto_provided_track
  | _ => .error (.invalid k)

structure TransferOptions where
  restore_paused : String
  restore_position : String
  restore_track : String
  retain_session : String
  deriving DecidableEq, Repr

def decodeTransferOptions (j : Json) : Except DecodeError TransferOptions := do
  let restore_paused ← reqField j "restore_paused" >>= asString "restore_paused"
  let restore_position ← reqField j "restore_position" >>= asString "restore_position"
  let restore_track ← reqField j "restore_track" >>= asString "restore_track"
  let retain_session ← reqField j "retain_session" >>= asString "retain_session"
  return { restore_paused, restore_position, restore_track, retain_session }

structure TransferCommand where
  data : Option TransferState
  options : TransferOptions
  from_device_identifier : String
  logging_params : LoggingParams
  deriving DecidableEq, Repr

def decodeTransferCommand (j : Json) : Except DecodeError TransferCommand := do
  let data ← (optField j "data" (fun v => base64_proto "data" v)).map (Option.join)
  let options ← reqField j "options" >>= decodeTransferOptions
  let from_device_identifier ←
    reqField j "from_device_identifier" >>= asString "from_device_identifier"
  let logging_params ← reqField j "logging_params" >>= decodeLoggingParams
  return { data, options, from_device_identifier, logging_params }

structure SkipTo where
  track_uid : String
  track_uri : String
  track_index : Nat
  deriving DecidableEq, Repr

def decodeSkipTo (j : Json) : Except DecodeError SkipTo := do
  let track_uid ← reqField j "track_uid" >>= asString "track_uid"
  let track_uri ← reqField j "track_uri" >>= asString "track_uri"
  let track_index ← reqField j "track_index" >>= asU32 "track_index"
  return { track_uid, track_uri, track_index }

structure PlayOptions where
  skip_to : SkipTo
  player_option_overrides : Option ContextPlayerOptionOverrides
  license : String
  deriving DecidableEq, Repr

def decodePlayOptions (j : Json) : Except DecodeError PlayOptions := do
  let skip_to ← reqField j "skip_to" >>= decodeSkipTo
  let overrides ←
    (optField j "player_option_overrides"
      (fun v => (json_proto_option_overrides v).map some)).map Option.join
  let license ← reqField j "license" >>= asString "license"
  return { skip_to, player_option_overrides := overrides, license }

structure PlayCommand where
  context : Context
  play_origin : PlayOrigin
  options : PlayOptions
  logging_params : LoggingParams
  deriving DecidableEq, Repr

def decodePlayCommand (j : Json) : Except DecodeError PlayCommand := do
  let context ← reqField j "context" >>= json_proto_context
  let play_origin ← reqField j "play_origin" >>= json_proto_play_origin
  let options ← reqField j "options" >>= decodePlayOptions
  let logging_params ← reqField j "logging_params" >>= decodeLoggingParams
  return { context, play_origin, options, logging_params }

structure PauseCommand where
  logging_params : LoggingParams
  deriving DecidableEq, Repr

def decodePauseCommand (j : Json) : Except DecodeError PauseCommand := do
  let logging_params ← reqField j "logging_params" >>= decodeLoggingParams
  return { logging_params }

structure SeekToCommand where
  value : Nat
  position : Nat
  logging_params : LoggingParams
  deriving DecidableEq, Repr

def decodeSeekToCommand (j : Json) : Except DecodeError SeekToCommand := do
  let value ← reqField j "value" >>= asU32 "value"
  let position ← reqField j "position" >>= asU32 "position"
  let logging_params ← reqField j "logging_params" >>= decodeLoggingParams
  return { value, position, logging_params }

structure SkipNextCommand where
  track : Option ProvidedTrack
  logging_params : LoggingParams
  deriving DecidableEq, Repr

def decodeSkipNextCommand (j : Json) : Except DecodeError SkipNextCommand := do
  let track ← (optField j "track" option_json_proto_provided_track).map Option.join
  let logging_params ← reqField j "logging_params" >>= decodeLoggingParams
  return { track, logging_params }

structure SetShufflingCommand where
  value : Bool
  logging_params : LoggingParams
  deriving DecidableEq, Repr

def decodeSetShufflingCommand (j : Json) : Except DecodeError SetShufflingCommand := do
  let value ← reqField j "value" >>= asBool "value"
  let logging_params ← reqField j "logging_params" >>= decodeLoggingParams
  return { value, logging_params }

structure AddToQueueCommand where
  track : ProvidedTrack
  logging_params : LoggingParams
  deriving DecidableEq, Repr

def decodeAddToQueueCommand (j : Json) : Except DecodeError AddToQueueCommand := do
  let track ← reqField j "track" >>= json_proto_provided_track
  let logging_params ← reqField j "logging_params" >>= decodeLoggingParams
  return { track, logging_params }

structure SetQueueCommand where
  next_tracks : List ProvidedTrack
  prev_tracks : List ProvidedTrack
  queue_revision : String
  logging_params : LoggingParams
  deriving DecidableEq, Repr

def decodeSetQueueCommand (j : Json) : Except DecodeError SetQueueCommand := do
  let next_tracks ← reqField j "next_tracks" >>= vec_json_proto_provided_track "next_tracks"
  let prev_tracks ← reqField j "prev_tracks" >>= vec_json_proto_provided_track "prev_tracks"
  let queue_revision ← reqField j "queue_revision" >>= asString "queue_revision"
  let logging_params ← reqField j "logging_params" >>= decodeLoggingParams
  return { next_tracks, prev_tracks, queue_revision, logging_params }

structure GenericCommand where
  logging_params : LoggingParams
  deriving DecidableEq, Repr

def decodeGenericCommand (j : Json) : Except DecodeError GenericCommand := do
  let logging_params ← reqField j "logging_params" >>= decodeLoggingParams
  return { logging_params }

/-- `RequestCommand`: the closed command vocabulary plus the untagged
`Unknown` escape hatch carrying the raw structural value. -/
inductive RequestCommand where
  | Transfer (c : TransferCommand)
  | Play (c : PlayCommand)
  | Pause (c : PauseCommand)
  | SeekTo (c : SeekToCommand)
  | SkipNext (c : SkipNextCommand)
  | SetShufflingContext (c : SetShufflingCommand)
  | AddToQueue (c : AddToQueueCommand)
  | SetQueue (c : SetQueueCommand)
  | SkipPrev (c : GenericCommand)
  | Resume (c : GenericCommand)
  | Unknown (value : Json)

/-- The internally-carried tag of a command payload: the value of its
`endpoint` field when that value is a string. -/
def endpointOf (j : Json) : Option String :=
  match j with
  | .obj fields =>
    match fields.lookup "endpoint" with
    | some (.str s) => some s
    | _ => none
  | _ => none

/-- The ten known `endpoint` tags, i.e. the `snake_case` renamings of the
tagged `RequestCommand` variants. -/
def knownTags : List String :=
  ["transfer", "play", "pause", "seek_to", "skip_next", "set_shuffling_context",
   "add_to_queue", "set_queue", "skip_prev", "resume"]

/-- `true` when the payload carries an `endpoint` string equal (exactly) to
one of the known tags. -/
def endpointTagKnown (j : Json) : Bool :=
  match endpointOf j with
  | some t => decide (t ∈ knownTags)
  | none => false

/-- Decoding of `RequestCommand`: serde's internally tagged enum
(`tag = "endpoint"`, `rename_all = "snake_case"`) with a trailing
`#[serde(untagged)] Unknown(Value)` variant.  Tag comparison is exact string
equality; when the tag is absent or matches no tagged variant the untagged
fallback captures the raw value (and never fails); when the tag matches, the
variant's typed payload decoder runs on the buffered content and its errors
propagate. -/
def decodeRequestCommand (j : Json) : Except DecodeError RequestCommand :=
  match endpointOf j with
  | some tag =>
    if tag = "transfer" then (decodeTransferCommand j).map .Transfer
    else if tag = "play" then (decodePlayCommand j).map .Play
    else if tag = "pause" then (decodePauseCommand j).map .Pause
    else if tag = "seek_to" then (decodeSeekToCommand j).map .SeekTo
    else if tag = "skip_next" then (decodeSkipNextCommand j).map .SkipNext
    else if tag = "set_shuffling_context" then
      (decodeSetShufflingCommand j).map .SetShufflingContext
    else if tag = "add_to_queue" then (decodeAddToQueueCommand j).map .AddToQueue
    else if tag = "set_queue" then (decodeSetQueueCommand j).map .SetQueue
    else if tag = "skip_prev" then (decodeGenericCommand j).map .SkipPrev
    else if tag = "resume" then (decodeGenericCommand j).map .Resume
    else .ok (.Unknown j)
  | none => .ok (.Unknown j)

/-- The inbound request envelope. -/
structure Request where
  message_id : Nat
  sent_by_device_id : String
  command : RequestCommand

def decodeRequest (j : Json) : Except DecodeError Request := do
  let message_id ← reqField j "message_id" >>= asU32 "message_id"
  let sent_by_device_id ← reqField j "sent_by_device_id" >>= asString "sent_by_device_id"
  let command ← reqField j "command" >>= decodeRequestCommand
  return { message_id, sent_by_device_id, command }

/-- The label derived by `Display for RequestCommand`: the canonical tag for
known variants; for `Unknown`, the raw payload's `endpoint` string when it is
present and a string, else the placeholder `"???"`.  The full rendering is
`"endpoint: "` followed by this label (`requestCommandDisplay`). -/
def commandLabel : RequestCommand → String
  | .Transfer _ => "transfer"
  | .Play _ => "play"
  | .Pause _ => "pause"
  | .SeekTo _ => "seek_to"
  | .SetShufflingContext _ => "set_shuffling_context"
  | .AddToQueue _ => "add_to_queue"
  | .SetQueue _ => "set_queue"
  | .SkipNext _ => "skip_next"
  | .SkipPrev _ => "skip_prev"
  | .Resume _ => "resume"
  | .Unknown json =>
    match json with
    | .obj fields =>
      match fields.lookup "endpoint" with
      | some (.str s) => s
      | _ => "???"
    | _ => "???"

def requestCommandDisplay (c : RequestCommand) : String :=
  "endpoint: " ++ commandLabel c

/-! ## The play-state store (`src/connect/src/state.rs`) -/

/-- The advancement errors of `ConnectStateError`.  (Every one converts into a
failed-precondition class `Error`.) -/
inductive ConnectStateError where
  | NoCurrentTrack
  | NoNextTrack
  | NoPreviousTrack
  deriving DecidableEq, Repr

/-- An entry of the user-curated play-next queue (protobuf `ContextTrack`);
the fields `next_queued_track` reads: URI and uid. -/
structure ContextTrack where
  uri : String
  uid : String
  deriving DecidableEq, Repr

/-- The play-next queue (protobuf `Queue`): the curated track list plus the
flag marking it as the active advancement source. -/
structure Queue where
  is_playing_queue : Bool
  tracks : List ContextTrack
  deriving DecidableEq, Repr

/-- The context index pointer (protobuf `ContextIndex`). -/
structure ContextIndex where
  page : Nat
  track : Nat
  deriving DecidableEq, Repr

/-- The playback-option flags (protobuf `ContextPlayerOptions`). -/
structure ContextPlayerOptions where
  shuffling_context : Bool
  repeating_context : Bool
  repeating_track : Bool
  deriving DecidableEq, Repr

/-- The transport snapshot (protobuf `PlayerState`); the fields the verified
operations read or write.  `MessageField` wrappers become `Option`.  The
remaining protobuf fields (among them `playback_speed`, an IEEE double, and
the `play_origin`/`suppressions`/`restrictions` sub-messages) are never
inspected by the operations under verification and are omitted. -/
structure PlayerState where
  track : Option ProvidedTrack
  prev_tracks : List ProvidedTrack
  next_tracks : List ProvidedTrack
  index : Option ContextIndex
  options : Option ContextPlayerOptions
  is_playing : Bool
  is_paused : Bool
  is_buffering : Bool
  is_system_initiated : Bool
  timestamp : Int
  position_as_of_timestamp : Int
  deriving DecidableEq, Repr

/-- The device description (protobuf `DeviceInfo`); built once at startup, the
verified operations only copy it, so identity, name and volume stand in for
the full capability record. -/
structure DeviceInfo where
  name : String
  device_id : String
  volume : Nat
  deriving DecidableEq, Repr

/-- The authoritative connect state (`ConnectState`).
`active_since : Option Int` is the `SystemTime` in signed epoch-milliseconds;
`has_been_playing_for : Option Nat` is the `Instant` in monotonic-clock
milliseconds. -/
structure ConnectState where
  active : Bool
  active_since : Option Int
  has_been_playing_for : Option Nat
  device : DeviceInfo
  player : PlayerState
  queue : Queue
  last_command : Option Request

/-- `set_active`: `now` is `SystemTime::now()` in epoch-milliseconds. -/
def set_active (s : ConnectState) (now : Int) (value : Bool) : ConnectState :=
  if value then
    if s.active then s
    else { s with active := true, active_since := some now }
  else
    { s with active := false, active_since := none }

def set_repeat_context (s : ConnectState) (repeat_ : Bool) : ConnectState :=
  match s.player.options with
  | some options =>
    { s with player := { s.player with
        options := some { options with repeating_context := repeat_ } } }
  | none => s

def set_repeat_track (s : ConnectState) (repeat_ : Bool) : ConnectState :=
  match s.player.options with
  | some options =>
    { s with player := { s.player with
        options := some { options with repeating_track := repeat_ } } }
  | none => s

def set_shuffle (s : ConnectState) (shuffle : Bool) : ConnectState :=
  match s.player.options with
  | some options =>
    { s with player := { s.player with
        options := some { options with shuffling_context := shuffle } } }
  | none => s

def set_playing_track_index (s : ConnectState) (new_index : Nat) : ConnectState :=
  match s.player.index with
  | some index =>
    { s with player := { s.player with
        index := some { index with track := new_index } } }
  | none => s

/-- Modelled from the spec: `SpircPlayStatus` (declared in `spirc.rs`, not
part of the verified sources) — the external transport-status signal with the
five variants named by the specification; the payload fields the `Loading`/
`Paused`/`Playing` variants carry are ignored by `set_status` (`{ .. }`
patterns) and are omitted. -/
inductive SpircPlayStatus where
  | Stopped
  | LoadingPause
  | Paused
  | LoadingPlay
  | Playing
  deriving DecidableEq, Repr

/-- `set_status`: maps the status onto the three transport booleans with the
three `matches!` tests of the source. -/
def set_status (s : ConnectState) (status : SpircPlayStatus) : ConnectState :=
  { s with player := { s.player with
      is_paused :=
        match status with
        | .LoadingPause | .Paused | .Stopped => true
        | _ => false
      is_buffering :=
        match status with
        | .LoadingPause | .LoadingPlay => true
        | _ => false
      is_playing :=
        match status with
        | .LoadingPlay | .Playing => true
        | _ => false } }

/-- The outcome of an advancement call.  `panic` is the aborting outcome of
`Vec::remove(0)` on an empty vector (`next_tracks.remove(0)` with no
emptiness check). -/
inductive NextResult where
  | ok (state : ConnectState) (track : ProvidedTrack)
  | err (e : ConnectStateError)
  | panic

/-- `next_track`: context advancement.  Takes the current track (failing with
`NoCurrentTrack` when none is set), pushes it at the tail of `prev_tracks`
after evicting the front entry when the history already holds 10 or more, then
installs `next_tracks.remove(0)` as current — which aborts (`panic`) when
`next_tracks` is empty. -/
def next_track (s : ConnectState) : NextResult :=
  match s.player.track with
  | none => .err .NoCurrentTrack
  | some old_track =>
    let prev :=
      if s.player.prev_tracks.length ≥ 10 then s.player.prev_tracks.drop 1
      else s.player.prev_tracks
    let prev := prev ++ [old_track]
    match s.player.next_tracks with
    | [] => .panic
    | new_track :: rest =>
      .ok { s with player := { s.player with
              track := some new_track
              prev_tracks := prev
              next_tracks := rest } } new_track

/-- `next_queued_track`: pops the tail of the play-next queue (`Vec::pop`);
when the queue is empty it falls back to `next_track`; otherwise it wraps the
popped entry as a provider-`"queue"` `ProvidedTrack` and installs it as
current without touching the history. -/
def next_queued_track (s : ConnectState) : NextResult :=
  match s.queue.tracks.getLast? with
  | none => next_track s
  | some next_queued =>
    let next_provided : ProvidedTrack :=
      { uri := next_queued.uri, uid := next_queued.uid, provider := "queue" }
    .ok { s with
            queue := { s.queue with tracks := s.queue.tracks.dropLast }
            player := { s.player with track := some next_provided } }
        next_provided

/-- `next_playing_track`: queue-sourced advancement when the play-next queue
is the active source, else context advancement. -/
def next_playing_track (s : ConnectState) : NextResult :=
  if s.queue.is_playing_queue then next_queued_track s
  else next_track s

/-- `prev_track`: declared but not functionally implemented. -/
def prev_track (_s : ConnectState) : Option ProvidedTrack :=
  none

/-- Modelled from the spec: the protobuf `PutStateReason` enumeration
(`librespot_protocol`, not part of the verified sources), with the reason
codes the specification names. -/
inductive PutStateReason where
  | NEW_DEVICE
  | BECAME_ACTIVE
  | BECAME_INACTIVE
  | PLAYER_STATE_CHANGED
  | PERIODIC_PING
  deriving DecidableEq, Repr

/-- Modelled from the spec: the protobuf `MemberType` tag; the publisher
always sends the fixed connect-protocol participant tag. -/
inductive MemberType where
  | CONNECT_STATE
  deriving DecidableEq, Repr

/-- The embedded device snapshot of the outbound request (protobuf
`Device`). -/
structure Device where
  device_info : DeviceInfo
  player_state : PlayerState
  deriving DecidableEq, Repr

/-- The outbound snapshot request (protobuf `PutStateRequest`); the fields
`update_state` fills.  The optional protobuf scalars
`has_been_playing_for_ms` and `started_playing_at` are modelled as `Option`
(`none` = left unset/omitted from the request). -/
structure PutStateRequest where
  client_side_timestamp : Nat
  member_type : MemberType
  put_state_reason : PutStateReason
  is_active : Bool
  device : Option Device
  has_been_playing_for_ms : Option Nat
  started_playing_at : Option Nat
  last_command_message_id : Nat
  last_command_sent_by_device_id : String

/-- The outcome of `update_state`: `panic` for the `todo!()` on
`BECAME_INACTIVE` and the `expect` on a pre-epoch clock; `err` for the `?` on
an unrepresentable client timestamp; `submitted` carries the request handed to
`put_connect_state_request` together with the warnings emitted on the way. -/
inductive UpdateOutcome where
  | panic
  | err
  | submitted (request : PutStateRequest) (warnings : List String)

/-- `update_state`: builds and submits the outbound snapshot.  `now_ms` is
`SystemTime::now()` in signed epoch-milliseconds (negative = clock before the
epoch), `mono_now_ms` the monotonic clock at the call, so that
`has_been_playing_for.elapsed()` is `mono_now_ms - started`.  A
`has_been_playing_for` or `started_playing_at` millisecond count that does not
fit the wire integer width (`u64`, respectively the protobuf field width)
leaves the field unset and records a warning; the publish proceeds. -/
def update_state (s : ConnectState) (now_ms : Int) (mono_now_ms : Nat)
    (reason : PutStateReason) : UpdateOutcome :=
  match reason with
  | .BECAME_INACTIVE => .panic
  | _ =>
    if now_ms < 0 then .panic
    else if (2 : Int) ^ 64 ≤ now_ms then .err
    else
      let base : PutStateRequest :=
        { client_side_timestamp := now_ms.toNat
          member_type := .CONNECT_STATE
          put_state_reason := reason
          is_active := s.active
          device := some { device_info := s.device, player_state := s.player }
          has_been_playing_for_ms := none
          started_playing_at := none
          last_command_message_id := 0
          last_command_sent_by_device_id := "" }
      let step1 : PutStateRequest × List String :=
        match s.has_been_playing_for with
        | none => (base, [])
        | some started =>
          let elapsed := mono_now_ms - started
          if elapsed < 2 ^ 64 then
            ({ base with has_been_playing_for_ms := some elapsed }, [])
          else
            (base,
             ["couldn\x27t update has been playing for because out of range integral type conversion attempted"])
      let step2 : PutStateRequest × List String :=
        match s.active_since with
        | none => step1
        | some active_since =>
          if 0 ≤ active_since then
            if active_since < 2 ^ 64 then
              ({ step1.1 with started_playing_at := some active_since.toNat }, step1.2)
            else
              (step1.1,
               step1.2 ++
                 ["couldn\x27t update active since because out of range integral type conversion attempted"])
          else step1
      let step3 : PutStateRequest :=
        match s.last_command with
        | none => step2.1
        | some request =>
          { step2.1 with
              last_command_message_id := request.message_id
              last_command_sent_by_device_id := request.sent_by_device_id }
      .submitted step3 step2.2

/-! ## Concrete test fixtures -/

def ctx_track (u : String) : ProvidedTrack :=
  { uri := u, uid := u, provider := "context" }

def fix_device : DeviceInfo :=
  { name := "librespot", device_id := "dev0", volume := 32767 }

def fix_player : PlayerState :=
  { track := none, prev_tracks := [], next_tracks := [], index := none,
    options := some { shuffling_context := false, repeating_context := false,
                      repeating_track := false },
    is_playing := false, is_paused := false, is_buffering := false,
    is_system_initiated := true, timestamp := 0, position_as_of_timestamp := 0 }

def fix_state : ConnectState :=
  { active := false, active_since := none, has_been_playing_for := none,
    device := fix_device, player := fix_player,
    queue := { is_playing_queue := false, tracks := [] }, last_command := none }

def c1_s0 : ConnectState :=
  { fix_state with player := { fix_player with
      track := some (ctx_track "t0"),
      next_tracks := [ctx_track "A", ctx_track "B", ctx_track "C"] } }

def c1_s1 : ConnectState :=
  { fix_state with player := { fix_player with
      track := some (ctx_track "A"),
      prev_tracks := [ctx_track "t0"],
      next_tracks := [ctx_track "B", ctx_track "C"] } }

def c1_s2 : ConnectState :=
  { fix_state with player := { fix_player with
      track := some (ctx_track "B"),
      prev_tracks := [ctx_track "t0", ctx_track "A"],
      next_tracks := [ctx_track "C"] } }

def c1_s3 : ConnectState :=
  { fix_state with player := { fix_player with
      track := some (ctx_track "C"),
      prev_tracks := [ctx_track "t0", ctx_track "A", ctx_track "B"],
      next_tracks := [] } }

def c2_s0 : ConnectState :=
  { fix_state with player := { fix_player with
      track := some (ctx_track "t0"),
      prev_tracks := (List.range 11).map fun i => ctx_track (toString i),
      next_tracks := [ctx_track "N"] } }

def c2_w0 : ConnectState :=
  { fix_state with player := { fix_player with
      track := some (ctx_track "t0"),
      prev_tracks := (List.range 10).map fun i => ctx_track (toString i),
      next_tracks := [ctx_track "N"] } }

def c2_w1 : ConnectState :=
  { fix_state with player := { fix_player with
      track := some (ctx_track "N"),
      prev_tracks :=
        (((List.range 10).map fun i => ctx_track (toString i)).drop 1) ++ [ctx_track "t0"],
      next_tracks := [] } }

def c3_s0 : ConnectState :=
  { fix_state with
      player := { fix_player with track := some (ctx_track "t0") },
      queue := { is_playing_queue := true,
                 tracks := [{ uri := "X", uid := "xu" }, { uri := "Y", uid := "yu" }] } }

def c7_s0 : ConnectState :=
  { fix_state with
      queue := { is_playing_queue := true, tracks := [{ uri := "X", uid := "xu" }] } }

def c7_s1 : ConnectState :=
  { fix_state with
      queue := { is_playing_queue := true, tracks := [] },
      player := { fix_player with
        track := some { uri := "X", uid := "xu", provider := "queue" } } }

def emptyLogging : LoggingParams :=
  { interaction_ids := none, device_identifier := none,
    command_initiated_time := none, page_instance_ids := none, command_id := none }

def jPauseNoParams : Json := .obj [("endpoint", .str "pause")]

def jPauseOk : Json := .obj [("endpoint", .str "pause"), ("logging_params", .obj [])]

def jPauseCaps : Json := .obj [("endpoint", .str "Pause"), ("logging_params", .obj [])]

def jFutureFeature : Json := .obj [("endpoint", .str "future_feature")]

def c9_s0 : ConnectState :=
  { fix_state with
      active := true,
      active_since := some ((2 : Int) ^ 64),
      has_been_playing_for := some 0 }

/-! ## Helper lemmas -/

/-- Context advancement, when it succeeds, pushed the former current track at
the tail of the history, evicting the front entry when the history held 10 or
more. -/
theorem next_track_prev (s s' : ConnectState) (t : ProvidedTrack)
    (h : next_track s = .ok s' t) :
    ∃ old, s.player.track = some old ∧
      s'.player.prev_tracks =
        (if s.player.prev_tracks.length ≥ 10 then s.player.prev_tracks.drop 1
         else s.player.prev_tracks) ++ [old] := by
  unfold next_track at h
  cases hc : s.player.track with
  | none => rw [hc] at h; exact absurd h (by simp)
  | some old =>
    rw [hc] at h
    cases hn : s.player.next_tracks with
    | nil => rw [hn] at h; exact absurd h (by simp)
    | cons new_track rest =>
      rw [hn] at h
      refine ⟨old, rfl, ?_⟩
      cases h
      rfl

/-- Queue-sourced advancement (non-empty queue) leaves the history untouched. -/
theorem next_queued_track_prev (s s' : ConnectState) (t : ProvidedTrack)
    (hq : s.queue.tracks ≠ [])
    (h : next_queued_track s = .ok s' t) :
    s'.player.prev_tracks = s.player.prev_tracks := by
  unfold next_queued_track at h
  cases hg : s.queue.tracks.getLast? with
  | none => exact absurd (List.getLast?_eq_none_iff.mp hg) hq
  | some q =>
    rw [hg] at h
    cases h
    rfl

/-! ## Claim theorems -/

/-- C1: context-sourced advancement is FIFO on the next-track list, but on
exhaustion the code does not return `NoNextTrack`: with current track `t0` and
next-tracks `[A, B, C]` (queue not the active source), three advancements
install and return `A`, `B`, `C`, and the fourth call aborts
(`next_tracks.remove(0)` on an empty vector) instead of failing with
`NoNextTrack`. -/
theorem c1_fifo_then_abort :
    next_playing_track c1_s0 = .ok c1_s1 (ctx_track "A") ∧
    next_playing_track c1_s1 = .ok c1_s2 (ctx_track "B") ∧
    next_playing_track c1_s2 = .ok c1_s3 (ctx_track "C") ∧
    next_playing_track c1_s3 = .panic :=
  ⟨rfl, rfl, rfl, rfl⟩

/-- C2 counterexample: from a starting state whose previous-track history
already holds 11 entries, a successful context advancement leaves the history
at length 11, so history length is not bounded by 10 over advancements from
arbitrary starting states. -/
theorem c2_counterexample :
    (match next_playing_track c2_s0 with
     | .ok s' _ => s'.player.prev_tracks.length
     | _ => 0) = 11 :=
  rfl

/-- C2 (amended): for every starting state whose previous-track history has
length at most 10 — as holds for every state reachable from the initial empty
history — any successful advancement keeps the length at most 10; on the
context path the former current track is pushed at the tail, the front entry
being evicted first exactly when the history holds 10 entries. -/
theorem prev_tracks_bounded (s s' : ConnectState) (t : ProvidedTrack)
    (hlen : s.player.prev_tracks.length ≤ 10)
    (h : next_playing_track s = .ok s' t) :
    s'.player.prev_tracks.length ≤ 10 ∧
    (∀ old, s.queue.is_playing_queue = false → s.player.track = some old →
      (s.player.prev_tracks.length = 10 →
        s'.player.prev_tracks = s.player.prev_tracks.drop 1 ++ [old]) ∧
      (s.player.prev_tracks.length < 10 →
        s'.player.prev_tracks = s.player.prev_tracks ++ [old])) := by
  unfold next_playing_track at h
  by_cases hq : s.queue.is_playing_queue
  · rw [if_pos hq] at h
    by_cases hqt : s.queue.tracks = []
    · rw [next_queued_track, List.getLast?_eq_none_iff.mpr hqt] at h
      obtain ⟨old, hold, hprev⟩ := next_track_prev s s' t h
      constructor
      · rw [hprev]
        by_cases h10 : s.player.prev_tracks.length ≥ 10
        · simp [if_pos h10]; omega
        · simp [if_neg h10]; omega
      · intro old' hq' _
        rw [hq] at hq'; exact absurd hq' (by simp)
    · rw [next_queued_track_prev s s' t hqt h]
      refine ⟨hlen, ?_⟩
      intro old' hq' _
      rw [hq] at hq'; exact absurd hq' (by simp)
  · rw [if_neg hq] at h
    obtain ⟨old, hold, hprev⟩ := next_track_prev s s' t h
    constructor
    · rw [hprev]
      by_cases h10 : s.player.prev_tracks.length ≥ 10
      · simp [if_pos h10]; omega
      · simp [if_neg h10]; omega
    · intro old' _ hold'
      rw [hold] at hold'
      cases hold'
      constructor
      · intro h10
        rw [hprev, if_pos (by omega)]
      · intro h10
        rw [hprev, if_neg (by omega)]

/-- C2 witness: with exactly 10 history entries, a successful advancement
keeps the history at 10 entries, evicting the oldest. -/
theorem prev_tracks_bounded_witness :
    c2_w1.player.prev_tracks.length ≤ 10 ∧
    c2_w1.player.prev_tracks = c2_w0.player.prev_tracks.drop 1 ++ [ctx_track "t0"] :=
  ⟨(prev_tracks_bounded c2_w0 c2_w1 (ctx_track "N") (by decide) rfl).1,
   ((prev_tracks_bounded c2_w0 c2_w1 (ctx_track "N") (by decide) rfl).2
      (ctx_track "t0") rfl rfl).1 (by decide)⟩

/-- C3: queue-sourced advancement is LIFO with fallback to context
advancement: with the play-next queue active and populated by pushing `X` then
`Y`, the first advancement installs and returns `Y` as a provider-`"queue"`
`ProvidedTrack`, the second installs and returns `X`, and the third call, the
queue now empty, is exactly context advancement. -/
theorem queue_advancement_lifo (s : ConnectState) (X Y : ContextTrack)
    (hq : s.queue.is_playing_queue = true)
    (ht : s.queue.tracks = [X, Y]) :
    next_playing_track s =
      .ok { s with
              queue := { s.queue with tracks := [X] },
              player := { s.player with
                track := some { uri := Y.uri, uid := Y.uid, provider := "queue" } } }
          { uri := Y.uri, uid := Y.uid, provider := "queue" } ∧
    next_playing_track
        { s with
            queue := { s.queue with tracks := [X] },
            player := { s.player with
              track := some { uri := Y.uri, uid := Y.uid, provider := "queue" } } } =
      .ok { s with
              queue := { s.queue with tracks := [] },
              player := { s.player with
                track := some { uri := X.uri, uid := X.uid, provider := "queue" } } }
          { uri := X.uri, uid := X.uid, provider := "queue" } ∧
    next_playing_track
        { s with
            queue := { s.queue with tracks := [] },
            player := { s.player with
              track := some { uri := X.uri, uid := X.uid, provider := "queue" } } } =
      next_track
        { s with
            queue := { s.queue with tracks := [] },
            player := { s.player with
              track := some { uri := X.uri, uid := X.uid, provider := "queue" } } } := by
  obtain ⟨a, asi, hbp, dev, pl, ⟨qflag, qtracks⟩, lc⟩ := s
  simp only at hq ht
  subst hq ht
  exact ⟨rfl, rfl, rfl⟩

/-- C3 witness: the LIFO advancement sequence at a concrete two-element
queue-active state. -/
theorem queue_advancement_lifo_witness :
    next_playing_track c3_s0 =
      .ok { c3_s0 with
              queue := { c3_s0.queue with tracks := [{ uri := "X", uid := "xu" }] },
              player := { c3_s0.player with
                track := some { uri := "Y", uid := "yu", provider := "queue" } } }
          { uri := "Y", uid := "yu", provider := "queue" } :=
  (queue_advancement_lifo c3_s0 { uri := "X", uid := "xu" } { uri := "Y", uid := "yu" }
    rfl rfl).1

/-- C4: `set_status` sets the three transport booleans as a pure function of
the status variant per the specified table and changes no other field of the
player state (nor of the surrounding connect state). -/
theorem set_status_table (s : ConnectState) :
    set_status s .Stopped = { s with player := { s.player with
      is_playing := false, is_paused := true, is_buffering := false } } ∧
    set_status s .Paused = { s with player := { s.player with
      is_playing := false, is_paused := true, is_buffering := false } } ∧
    set_status s .LoadingPause = { s with player := { s.player with
      is_playing := false, is_paused := true, is_buffering := true } } ∧
    set_status s .LoadingPlay = { s with player := { s.player with
      is_playing := true, is_paused := false, is_buffering := true } } ∧
    set_status s .Playing = { s with player := { s.player with
      is_playing := true, is_paused := false, is_buffering := false } } :=
  ⟨rfl, rfl, rfl, rfl, rfl⟩

/-- C5 counterexample: a payload whose `endpoint` is the known tag `"pause"`
but whose typed parsing fails (the required `logging_params` field is absent)
is a hard decode failure, not the `Unknown` variant. -/
theorem c5_counterexample :
    decodeRequestCommand jPauseNoParams = .error (.missing "logging_params") :=
  rfl

/-- C5 (amended): an envelope whose command tag is outside the known
vocabulary — its `endpoint` is absent or a string matching no known tag —
decodes to the `Unknown` variant carrying the raw structural value verbatim
and never hard-fails; a known tag whose payload fails typed parsing is instead
a decode error for that command.  The derived label of a command is the
canonical tag name for known variants, the original `endpoint` string for
`Unknown` when present, and the fixed placeholder `"???"` when absent. -/
theorem unknown_fallback_and_label :
    (∀ j : Json, endpointTagKnown j = false →
      decodeRequestCommand j = .ok (.Unknown j)) ∧
    (∀ c, commandLabel (.Transfer c) = "transfer") ∧
    (∀ c, commandLabel (.Play c) = "play") ∧
    (∀ c, commandLabel (.Pause c) = "pause") ∧
    (∀ c, commandLabel (.SeekTo c) = "seek_to") ∧
    (∀ c, commandLabel (.SkipNext c) = "skip_next") ∧
    (∀ c, commandLabel (.SetShufflingContext c) = "set_shuffling_context") ∧
    (∀ c, commandLabel (.AddToQueue c) = "add_to_queue") ∧
    (∀ c, commandLabel (.SetQueue c) = "set_queue") ∧
    (∀ c, commandLabel (.SkipPrev c) = "skip_prev") ∧
    (∀ c, commandLabel (.Resume c) = "resume") ∧
    (∀ fields s, fields.lookup "endpoint" = some (.str s) →
      commandLabel (.Unknown (.obj fields)) = s) ∧
    (∀ fields, fields.lookup "endpoint" = none →
      commandLabel (.Unknown (.obj fields)) = "???") := by
  refine ⟨?_, fun _ => rfl, fun _ => rfl, fun _ => rfl, fun _ => rfl, fun _ => rfl,
          fun _ => rfl, fun _ => rfl, fun _ => rfl, fun _ => rfl, fun _ => rfl,
          ?_, ?_⟩
  · intro j h
    unfold endpointTagKnown at h
    cases he : endpointOf j with
    | none => unfold decodeRequestCommand; rw [he]
    | some t =>
      rw [he] at h
      simp only [knownTags, decide_eq_false_iff_not, List.mem_cons,
                 List.not_mem_nil, or_false, not_or] at h
      obtain ⟨h1, h2, h3, h4, h5, h6, h7, h8, h9, h10⟩ := h
      simp [decodeRequestCommand, he, h1, h2, h3, h4, h5, h6, h7, h8, h9, h10]
  · intro fields s hl
    simp only [commandLabel, hl]
  · intro fields hl
    simp only [commandLabel, hl]

/-- C5 witness: the fallback and the labels at concrete payloads — an
unrecognized `"future_feature"` endpoint decodes to `Unknown` verbatim with
label `"future_feature"`, and a payload without `endpoint` gets the
placeholder label. -/
theorem unknown_fallback_and_label_witness :
    decodeRequestCommand jFutureFeature = .ok (.Unknown jFutureFeature) ∧
    commandLabel (.Unknown jFutureFeature) = "future_feature" ∧
    commandLabel (.Unknown (.obj [("data", .num 1)])) = "???" :=
  ⟨unknown_fallback_and_label.1 jFutureFeature rfl,
   unknown_fallback_and_label.2.2.2.2.2.2.2.2.2.2.2.1
     [("endpoint", .str "future_feature")] "future_feature" rfl,
   unknown_fallback_and_label.2.2.2.2.2.2.2.2.2.2.2.2 [("data", .num 1)] rfl⟩

/-- C6 counterexample: tag discrimination is not case-insensitive — the
envelope payload with `endpoint` `"Pause"` (a known tag up to ASCII case) and
a valid `logging_params` decodes to the `Unknown` variant, not to the `Pause`
command. -/
theorem c6_counterexample :
    decodeRequestCommand jPauseCaps = .ok (.Unknown jPauseCaps) :=
  rfl

/-- C6 (amended): command-tag discrimination is case-sensitive exact string
matching: a payload whose `endpoint` exactly equals one of the ten known tags
never decodes to the `Unknown` variant (the typed decoder for that tag runs,
yielding its variant or a decode error); an exactly matching `"pause"` payload
with valid fields decodes to the `Pause` variant. -/
theorem exact_tag_discrimination :
    (∀ j t, endpointOf j = some t → t ∈ knownTags →
      ∀ v, decodeRequestCommand j ≠ .ok (.Unknown v)) ∧
    decodeRequestCommand jPauseOk = .ok (.Pause { logging_params := emptyLogging }) := by
  refine ⟨?_, rfl⟩
  intro j t he hmem v
  simp only [knownTags, List.mem_cons, List.not_mem_nil, or_false] at hmem
  rcases hmem with rfl | rfl | rfl | rfl | rfl | rfl | rfl | rfl | rfl | rfl
  · cases hx : decodeTransferCommand j <;>
      simp [decodeRequestCommand, he, Except.map, hx]
  · cases hx : decodePlayCommand j <;>
      simp [decodeRequestCommand, he, Except.map, hx]
  · cases hx : decodePauseCommand j <;>
      simp [decodeRequestCommand, he, Except.map, hx]
  · cases hx : decodeSeekToCommand j <;>
      simp [decodeRequestCommand, he, Except.map, hx]
  · cases hx : decodeSkipNextCommand j <;>
      simp [decodeRequestCommand, he, Except.map, hx]
  · cases hx : decodeSetShufflingCommand j <;>
      simp [decodeRequestCommand, he, Except.map, hx]
  · cases hx : decodeAddToQueueCommand j <;>
      simp [decodeRequestCommand, he, Except.map, hx]
  · cases hx : decodeSetQueueCommand j <;>
      simp [decodeRequestCommand, he, Except.map, hx]
  · cases hx : decodeGenericCommand j <;>
      simp [decodeRequestCommand, he, Except.map, hx]
  · cases hx : decodeGenericCommand j <;>
      simp [decodeRequestCommand, he, Except.map, hx]

/-- C6 witness: the exact tag `"pause"` does not fall to `Unknown`. -/
theorem exact_tag_discrimination_witness :
    decodeRequestCommand jPauseOk ≠ .ok (.Unknown jPauseOk) :=
  exact_tag_discrimination.1 jPauseOk "pause" rfl (by decide) jPauseOk

/-- C7 counterexample: with no current track set but the play-next queue
active and non-empty, `next_playing_track` succeeds (installing the queued
track) instead of failing with `NoCurrentTrack`. -/
theorem c7_counterexample :
    next_playing_track c7_s0 = .ok c7_s1 { uri := "X", uid := "xu", provider := "queue" } :=
  rfl

/-- C7 (amended): whenever advancement reaches the context path — the
play-next queue is not the active source, or it is empty — a state with no
current track fails with `NoCurrentTrack`. -/
theorem no_current_track_error (s : ConnectState)
    (hc : s.player.track = none)
    (h : s.queue.is_playing_queue = false ∨ s.queue.tracks = []) :
    next_playing_track s = .err .NoCurrentTrack := by
  unfold next_playing_track
  rcases h with h | h
  · rw [if_neg (by simp [h]), next_track, hc]
  · by_cases hq : s.queue.is_playing_queue
    · rw [if_pos hq, next_queued_track, List.getLast?_eq_none_iff.mpr h,
          next_track, hc]
    · rw [if_neg hq, next_track, hc]

/-- C7 witness: the error at the concrete idle state (queue inactive and
empty, no current track). -/
theorem no_current_track_error_witness :
    next_playing_track fix_state = .err .NoCurrentTrack :=
  no_current_track_error fix_state rfl (Or.inl rfl)

/-- C8: `set_active` is idempotent on activation and unconditionally clearing
on deactivation: activating an already active state changes nothing,
activating an inactive state records the current wall-clock time as
`active_since` and changes nothing else, and deactivating always clears
`active` and `active_since` whatever their prior values, changing nothing
else. -/
theorem set_active_spec (s : ConnectState) (now now' : Int) :
    set_active s now true =
      (if s.active then s else { s with active := true, active_since := some now }) ∧
    set_active s now false = { s with active := false, active_since := none } ∧
    set_active (set_active s now true) now' true = set_active s now true := by
  refine ⟨rfl, rfl, ?_⟩
  unfold set_active
  by_cases h : s.active <;> simp [h]

/-- C9: during publish, an unrepresentable `has_been_playing_for` elapsed
millisecond count or an unrepresentable `active_since` epoch millisecond count
is non-fatal: the affected optional field (`has_been_playing_for_ms`,
respectively `started_playing_at`) is left unset in the outbound request, a
diagnostic warning is recorded, and the publish still proceeds and is
submitted. -/
theorem update_state_overflow_nonfatal (s : ConnectState) (now_ms : Int)
    (mono_now_ms : Nat) (reason : PutStateReason)
    (hr : reason ≠ .BECAME_INACTIVE)
    (h0 : 0 ≤ now_ms) (h1 : now_ms < 2 ^ 64) :
    (∀ started, s.has_been_playing_for = some started →
      2 ^ 64 ≤ mono_now_ms - started →
      ∃ req warnings,
        update_state s now_ms mono_now_ms reason = .submitted req warnings ∧
        req.has_been_playing_for_ms = none ∧
        "couldn\x27t update has been playing for because out of range integral type conversion attempted"
          ∈ warnings) ∧
    (∀ t, s.active_since = some t → (2 : Int) ^ 64 ≤ t →
      ∃ req warnings,
        update_state s now_ms mono_now_ms reason = .submitted req warnings ∧
        req.started_playing_at = none ∧
        "couldn\x27t update active since because out of range integral type conversion attempted"
          ∈ warnings) := by
  cases reason <;> try exact absurd rfl hr
  all_goals
    simp only [update_state]
  all_goals
    rw [if_neg (not_lt.mpr h0), if_neg (not_le.mpr h1)]
  all_goals refine ⟨?_, ?_⟩
  all_goals
    first
    | · intro started hs hof
        rcases hact : s.active_since with _ | t2 <;>
          rcases hlc : s.last_command with _ | req <;>
            simp only [hs, hact, hlc, if_neg (not_lt.mpr hof)] <;>
            first
            | exact ⟨_, _, rfl, rfl, by simp⟩
            | (split_ifs <;> exact ⟨_, _, rfl, rfl, by simp⟩)
    | · intro t2 hact hof
        have hneg : ¬ t2 < 2 ^ 64 := not_lt.mpr hof
        have hpos : (0 : Int) ≤ t2 := le_trans (by norm_num) hof
        rcases hhb : s.has_been_playing_for with _ | started <;>
          rcases hlc : s.last_command with _ | req <;>
            simp only [hhb, hact, hlc, if_pos hpos, if_neg hneg] <;>
            first
            | exact ⟨_, _, rfl, rfl, by simp⟩
            | (split_ifs <;> exact ⟨_, _, rfl, rfl, by simp⟩)

/-- C9 witness: at a concrete state with both millisecond counts at `2^64`,
the publish is submitted with both optional fields unset and both warnings
recorded. -/
theorem update_state_overflow_nonfatal_witness :
    (∃ req warnings,
      update_state c9_s0 5 (2 ^ 64) .PLAYER_STATE_CHANGED = .submitted req warnings ∧
      req.has_been_playing_for_ms = none ∧
      "couldn\x27t update has been playing for because out of range integral type conversion attempted"
        ∈ warnings) ∧
    (∃ req warnings,
      update_state c9_s0 5 (2 ^ 64) .PLAYER_STATE_CHANGED = .submitted req warnings ∧
      req.started_playing_at = none ∧
      "couldn\x27t update active since because out of range integral type conversion attempted"
        ∈ warnings) :=
  ⟨(update_state_overflow_nonfatal c9_s0 5 (2 ^ 64) .PLAYER_STATE_CHANGED
      (by decide) (by norm_num) (by norm_num)).1 0 rfl (by norm_num),
   (update_state_overflow_nonfatal c9_s0 5 (2 ^ 64) .PLAYER_STATE_CHANGED
      (by decide) (by norm_num) (by norm_num)).2 (2 ^ 64) rfl (by norm_num)⟩

/-- C10: when the player's index container is absent,
`set_playing_track_index` returns normally and leaves the entire state
unchanged — it neither fails nor creates the container. -/
theorem set_playing_track_index_frame (s : ConnectState) (n : Nat)
    (h : s.player.index = none) :
    set_playing_track_index s n = s := by
  unfold set_playing_track_index
  rw [h]

/-- C10 witness: the frame property at the concrete idle state. -/
theorem set_playing_track_index_frame_witness :
    set_playing_track_index fix_state 5 = fix_state :=
  set_playing_track_index_frame fix_state 5 rfl

end Librespot
